import Mathlib

/-!
Verification development for the Simple-AI-Agents repository.

The Python sources are shallowly embedded as Lean definitions:
pure formatting code becomes pure functions on lists of strings,
HTTP and filesystem interactions become explicit function parameters
describing the external world's replies, and Python exceptions become
the error branch of an Except value (an Except.error result models an
exception propagating out of the Python function, while a returned
string is an ordinary value).
-/

/- ------------------------------------------------------------------
Section: tools/response_formatter.py (text mode)

Python source, video_summary_response_formatter:
  if not (len(summaries) == len(titles) == len(topics) == len(urls)):
      return "Error: Input lists must have the same length."
  formatted_response = []
  for i in range(len(summaries)):
      formatted_response.append(f"Video i+1:")
      formatted_response.append(f"  Title: titles[i]")
      formatted_response.append(f"  URL: urls[i]")
      formatted_response.append(f"  Topic: topics[i]")
      formatted_response.append(f"  Summary: summaries[i]")
      formatted_response.append("")
  return "\n".join(formatted_response)
------------------------------------------------------------------ -/

def video_summary_response_formatter
    (summaries titles topics urls : List String) : String :=
  if summaries.length = titles.length ∧ titles.length = topics.length ∧
      topics.length = urls.length then
    String.intercalate "\n" ((List.range summaries.length).flatMap (fun i =>
      ["Video " ++ toString (i + 1) ++ ":",
       "  Title: " ++ titles.getD i "",
       "  URL: " ++ urls.getD i "",
       "  Topic: " ++ topics.getD i "",
       "  Summary: " ++ summaries.getD i "",
       ""]))
  else "Error: Input lists must have the same length."

/-- Spec-side description of one numbered text block (claim C1's words):
the block is headed by the number i, contains the four labeled lines
Title, URL, Topic, Summary with the item's values verbatim, followed by
a blank separator line. -/
def specBlock (i : Nat) (title url topic summary : String) : List String :=
  ["Video " ++ toString i ++ ":",
   "  Title: " ++ title,
   "  URL: " ++ url,
   "  Topic: " ++ topic,
   "  Summary: " ++ summary,
   ""]

/-- Spec-side list of blocks: one block per item, in input order, numbered
consecutively starting from the given first number. -/
def specBlockList :
    Nat → List String → List String → List String → List String →
    List (List String)
  | i, t :: ts, u :: us, p :: ps, s :: ss =>
    specBlock i t u p s :: specBlockList (i + 1) ts us ps ss
  | _, _, _, _, _ => []

/- ------------------------------------------------------------------
Section: tools/response_formatter.py (JSON mode)

The repository's agents/tubemaster.py imports json_response_formatter
from tools.response_formatter, but that function's definition is not
present under src/ (only its importing caller is).  It is therefore
modelled from the spec below.
------------------------------------------------------------------ -/

/-- Pairs the four parallel field lists into per-item quadruples
(video_title, url, topic, summary), preserving input order. -/
def zipItems :
    List String → List String → List String → List String →
    List (String × String × String × String)
  | t :: ts, u :: us, p :: ps, s :: ss => (t, u, p, s) :: zipItems ts us ps ss
  | _, _, _, _ => []

/-- JSON string escaping for the characters the serializer protects:
quote, backslash, newline, tab, carriage return. -/
def escChar (c : Char) : List Char :=
  if c = '"' then ['\\', '"']
  else if c = '\\' then ['\\', '\\']
  else if c = '\n' then ['\\', 'n']
  else if c = '\t' then ['\\', 't']
  else if c = '\r' then ['\\', 'r']
  else [c]

def escapeChars (l : List Char) : List Char := l.flatMap escChar

def escapeStr (s : String) : String := String.mk (escapeChars s.data)

/-- Serialization tokens of the 2-space-indented JSON envelope: an object
with the single top-level key "videos" holding the array of items. -/
def itemHead : String := "\x7b\n      \"video_title\": \""

def closeQuote : String := "\""

def urlKey : String := ",\n      \"url\": \""

def topicKey : String := ",\n      \"topic\": \""

def summaryKey : String := ",\n      \"summary\": \""

def itemClose : String := "\n    \x7d"

def itemsJoinSep : String := ",\n    "

def arrayOpen : String := "\x7b\n  \"videos\": ["

def arrayHeadTail : String := "\n    "

def arrayTail : String := "\n  ]\n\x7d"

def emptyArrayTail : String := "]\n\x7d"

/-- One per-item JSON object, rendered at 4-space (array-element) depth with
its four fields at 6-space depth, as a 2-space-indented serializer emits. -/
def renderVideoItem : String × String × String × String → String
  | (t, u, p, s) =>
    itemHead ++ escapeStr t ++ closeQuote ++ urlKey ++ escapeStr u ++
      closeQuote ++ topicKey ++ escapeStr p ++ closeQuote ++ summaryKey ++
      escapeStr s ++ closeQuote ++ itemClose

/-- Array elements joined by a comma and the array-element indentation. -/
def renderVideoItems : List (String × String × String × String) → String
  | [] => ""
  | [it] => renderVideoItem it
  | it :: its => renderVideoItem it ++ itemsJoinSep ++ renderVideoItems its

/-- Modelled from the spec: json_response_formatter is imported by
agents/tubemaster.py from tools/response_formatter.py but its definition
is missing from src/.  Per the spec it emits an object with a single
top-level key (the collection name "videos") whose value is an array of
per-item objects with fields video_title, url, topic, summary, preserving
input order, serialized with stable 2-space indentation, with the same
equal-length precondition and literal error string as text mode. -/
def json_response_formatter
    (summaries titles topics urls : List String) : String :=
  if summaries.length = titles.length ∧ titles.length = topics.length ∧
      topics.length = urls.length then
    match zipItems titles urls topics summaries with
    | [] => arrayOpen ++ emptyArrayTail
    | it :: its =>
      arrayOpen ++ arrayHeadTail ++ renderVideoItems (it :: its) ++ arrayTail
  else "Error: Input lists must have the same length."

/- An independent parser for the emitted JSON envelope, used to state the
round-trip property: parsing the serialized output recovers the items. -/

/-- Inverse of escChar on the escape codes the serializer emits. -/
def unescChar (c : Char) : Option Char :=
  if c = '"' then some '"'
  else if c = '\\' then some '\\'
  else if c = 'n' then some '\n'
  else if c = 't' then some '\t'
  else if c = 'r' then some '\r'
  else none

/-- Consumes an expected literal token; returns the remaining input. -/
def stripLeading : List Char → List Char → Option (List Char)
  | [], l => some l
  | _ :: _, [] => none
  | p :: ps, c :: cs => if p = c then stripLeading ps cs else none

/-- Reads an escaped JSON string body through its closing unescaped
quote; returns the unescaped content and the rest after the quote. -/
def parseStringBody : List Char → Option (List Char × List Char)
  | [] => none
  | c :: cs =>
    if c = '"' then some ([], cs)
    else if c = '\\' then
      match cs with
      | [] => none
      | d :: ds =>
        match unescChar d with
        | none => none
        | some e =>
          match parseStringBody ds with
          | none => none
          | some (s, r) => some (e :: s, r)
    else
      match parseStringBody cs with
      | none => none
      | some (s, r) => some (c :: s, r)

/-- Reads one serialized per-item object; returns the item's four fields
and the remaining input. -/
def parseVideoItem (l : List Char) :
    Option ((String × String × String × String) × List Char) :=
  (stripLeading itemHead.data l).bind fun l1 =>
  (parseStringBody l1).bind fun (t, l2) =>
  (stripLeading urlKey.data l2).bind fun l3 =>
  (parseStringBody l3).bind fun (u, l4) =>
  (stripLeading topicKey.data l4).bind fun l5 =>
  (parseStringBody l5).bind fun (p, l6) =>
  (stripLeading summaryKey.data l6).bind fun l7 =>
  (parseStringBody l7).bind fun (s, l8) =>
  (stripLeading itemClose.data l8).map fun l9 =>
  ((String.mk t, String.mk u, String.mk p, String.mk s), l9)

/-- Reads a comma-separated sequence of serialized items.  The fuel
argument only bounds the recursion depth; one unit is spent per parsed
item, so any fuel at least the item count behaves like the unbounded
parser. -/
def parseVideoItemsFuel :
    Nat → List Char →
    Option (List (String × String × String × String) × List Char)
  | 0, _ => none
  | fuel + 1, l =>
    match parseVideoItem l with
    | none => none
    | some (it, r) =>
      match stripLeading itemsJoinSep.data r with
      | none => some ([it], r)
      | some r2 =>
        match parseVideoItemsFuel fuel r2 with
        | none => none
        | some (its, r3) => some (it :: its, r3)

/-- Parses the whole serialized envelope back into the item list: the
object opener with its single "videos" key, then either an empty array
or the comma-separated items followed by the array and object closers. -/
def json_parse_videos (s : String) :
    Option (List (String × String × String × String)) :=
  match stripLeading arrayOpen.data s.data with
  | none => none
  | some l =>
    match stripLeading emptyArrayTail.data l with
    | some [] => some []
    | some _ => none
    | none =>
      match stripLeading arrayHeadTail.data l with
      | none => none
      | some l2 =>
        match parseVideoItemsFuel l2.length l2 with
        | none => none
        | some (its, r) => if r = arrayTail.data then some its else none

/- ------------------------------------------------------------------
Section: Youtube-Master-Agent/tools/transcriber.py

Python source, transcribe_audio:
  HF_TOKEN = os.getenv("HF_API_KEY"); headers = ...
  if not audio_file.endswith(".mp3"):
      return "Audio file must be in MP3 format."
  async with aiohttp.ClientSession() as session:
      with open(audio_file, "rb") as f: audio_data = f.read()
      async with session.post(WHISPER_HF_API_URL, ...) as response:
          result = await response.json()
  return result.get("text", "Transcription failed for ...")

The filesystem and the transcription endpoint are passed in as functions
(an Except.error reply models the corresponding Python exception, e.g. a
FileNotFoundError from open or an aiohttp network error).  The second
component of the result records the external accesses performed, in
order; the Except.error result models an exception propagating out.
------------------------------------------------------------------ -/

/-- Python str.endswith. -/
def pyEndsWith (s suffix : String) : Bool :=
  decide (suffix.data <:+ s.data)

/-- Raw bytes of an audio file. -/
abbrev AudioBytes := List Nat

/-- External accesses transcribe_audio can perform. -/
inductive TEffect where
  | fsRead (path : String)
  | netPost
deriving DecidableEq

def transcribe_audio (audio_file : String)
    (fs : String → Except String AudioBytes)
    (api : AudioBytes → Except String (Option String)) :
    Except String String × List TEffect :=
  if pyEndsWith audio_file ".mp3" then
    match fs audio_file with
    | Except.error e => (Except.error e, [TEffect.fsRead audio_file])
    | Except.ok audio_data =>
      match api audio_data with
      | Except.error e =>
        (Except.error e, [TEffect.fsRead audio_file, TEffect.netPost])
      | Except.ok text? =>
        (Except.ok (text?.getD ("Transcription failed for \x7baudio_file\x7d."
            ++ " Either no word was detected or there is something wrong"
            ++ " with the audio file.")),
          [TEffect.fsRead audio_file, TEffect.netPost])
  else (Except.ok "Audio file must be in MP3 format.", [])

/- ------------------------------------------------------------------
Section: Youtube-Master-Agent/tools/youtube_fetcher.py

Python source, download_youtube_audio:
  output_dir = str(temp_dir / audio_file_id)
  try:
      info_dict = await loop.run_in_executor(None, ydl.extract_info, url)
      video_title = info_dict.get("title", "Unknown Title")
  except Exception as e:
      return str(e)
  audio_file = f"output_dir.mp3"
  return f"Audio file: audio_file, Title: video_title"

The yt_dlp extraction is passed in as its outcome: Except.error e models
an exception whose str() is e, Except.ok title? carries the optional
"title" entry of the returned info dict.
------------------------------------------------------------------ -/

def download_youtube_audio (output_dir : String)
    (extract_info : Except String (Option String)) : String :=
  match extract_info with
  | Except.error e => e
  | Except.ok title? =>
    "Audio file: " ++ (output_dir ++ ".mp3") ++ ", Title: " ++
      title?.getD "Unknown Title"

/- ------------------------------------------------------------------
Section: tools/search_flight_tool.py

convert_country_to_code performs one GET against restcountries.com;
the reply is modelled as a status code plus the list of cca2 fields of
the returned country entries.  A non-200 status makes the Python code
raise ValueError (modelled as Except.error); indexing the empty body
raises IndexError (also Except.error).
------------------------------------------------------------------ -/

structure CountriesReply where
  status : Nat
  cca2s : List String

def convert_country_to_code (country_name : String)
    (reply : CountriesReply) : Except String String :=
  if reply.status ≠ 200 then
    Except.error ("Could not convert country name: " ++ country_name ++
      ". Check spelling.")
  else
    match reply.cca2s with
    | [] => Except.error "IndexError: list index out of range"
    | c :: _ => Except.ok c

/- forward builds flight_list from the fetched offers, then
     if len(flight_list) == 0: return "No direct flights found ..."
     df = pd.DataFrame(sorted(flight_list, key=lambda x: x["Price ..."]))
     return df.to_string(index=False)
   A flight record's fields; the price float(...) value is modelled as a
   rational number (only its ordering matters to the sort). -/

structure FlightRecord where
  price : ℚ
  duration : String
  flightNumber : String
  airline : String
  departureTime : String
deriving DecidableEq

/-- Inserts a record into a price-sorted list, before any strictly more
expensive record and after equal prices, as a stable sort does. -/
def insertByPrice (x : FlightRecord) :
    List FlightRecord → List FlightRecord
  | [] => [x]
  | y :: ys =>
    if x.price ≤ y.price then x :: y :: ys else y :: insertByPrice x ys

/-- Python's sorted(flight_list, key=lambda x: x[price]): a stable sort by
the price field (any stable sort computes the same list). -/
def sortByPrice : List FlightRecord → List FlightRecord
  | [] => []
  | x :: xs => insertByPrice x (sortByPrice xs)

/-- One row of the DataFrame rendering.  pandas column alignment is
abstracted; a row's cells appear in the DataFrame's column order. -/
def renderFlightRow (r : FlightRecord) : String :=
  toString r.price ++ " " ++ r.duration ++ " " ++ r.flightNumber ++ " " ++
    r.airline ++ " " ++ r.departureTime

def flightTableHeader (currency : String) : String :=
  "Price (" ++ currency ++ ") Duration Flight Number Airline Departure Time"

/-- The tail of AmadeusFlightSearchTool.forward, from the point where
flight_list has been collected: the no-results message on an empty list,
otherwise the DataFrame rendering of the price-sorted records. -/
def flight_forward_format
    (departure_city departure_country destination_city destination_country
      travel_date currency : String)
    (flight_list : List FlightRecord) : String :=
  if flight_list.length = 0 then
    "No direct flights found between " ++ departure_city ++ ", " ++
      departure_country ++ " and " ++ destination_city ++ ", " ++
      destination_country ++ " on " ++ travel_date
  else
    flightTableHeader currency ++ "\n" ++
      String.intercalate "\n"
        ((sortByPrice flight_list).map renderFlightRow)

/- ------------------------------------------------------------------
Section: tools/search_hotel_tool.py (fetch_hotel_offers)

Python source (per hotel id, inside try/except Exception: continue):
  response = requests.get(...)
  if response.status_code != 200: raise ValueError(...)
  offers = response.json().get("data", [])
  if not offers: return "No hotel offers found for this hotel."
  for offer in offers: data.append({... fields ...})
  (after the try) if len(data) >= 15: break
  return pd.DataFrame(data).to_string(index=False)

Each hotel id's HTTP reply is modelled as a status code plus the decoded
offer list; a raised-and-caught failure is exactly a non-200 status.
------------------------------------------------------------------ -/

structure HotelOffer where
  hotelName : String
  latitude : String
  longitude : String
  priceTotal : Option String
deriving DecidableEq

structure HotelReply where
  status : Nat
  data : List HotelOffer
deriving DecidableEq

structure HotelRecord where
  hotelName : String
  price : String
  checkInDate : String
  checkOutDate : String
  latitude : String
  longitude : String
deriving DecidableEq

def offerToRecord (check_in check_out currency : String)
    (o : HotelOffer) : HotelRecord :=
  { hotelName := o.hotelName,
    price := o.priceTotal.getD "N/A" ++ " " ++ currency,
    checkInDate := check_in,
    checkOutDate := check_out,
    latitude := o.latitude,
    longitude := o.longitude }

/-- Outcome of the offer-collection loop: either the DataFrame rows, or
the early return taken when a hotel's lookup succeeds with zero offers. -/
inductive OffersOutcome where
  | table (records : List HotelRecord)
  | noOffersEarly
deriving DecidableEq

def offersLoop (check_in check_out currency : String) :
    List HotelReply → List HotelRecord → OffersOutcome
  | [], data => OffersOutcome.table data
  | r :: rs, data =>
    if r.status ≠ 200 then offersLoop check_in check_out currency rs data
    else
      match r.data with
      | [] => OffersOutcome.noOffersEarly
      | o :: os =>
        let data2 :=
          data ++ (o :: os).map (offerToRecord check_in check_out currency)
        if 15 ≤ data2.length then OffersOutcome.table data2
        else offersLoop check_in check_out currency rs data2

/-- AmadeusHotelFinderTool.fetch_hotel_offers, with the per-hotel HTTP
replies passed in: iterates over the first 50 hotel ids accumulating
records. -/
def fetch_hotel_offers (check_in check_out currency : String)
    (replies : List HotelReply) : OffersOutcome :=
  offersLoop check_in check_out currency (replies.take 50) []

/-- Records of the successful (status 200) replies, in reply order. -/
def successRecords (check_in check_out currency : String)
    (replies : List HotelReply) : List HotelRecord :=
  (replies.filter (fun r => r.status == 200)).flatMap
    (fun r => r.data.map (offerToRecord check_in check_out currency))

/-- Number of collected records of an outcome. -/
def outcomeCount : OffersOutcome → Nat
  | OffersOutcome.table records => records.length
  | OffersOutcome.noOffersEarly => 0

/-- A concrete run used to test the 15-record cap: 14 hotels whose reply
holds one offer each, then one hotel whose reply holds three offers. -/
def capReplies : List HotelReply :=
  List.replicate 14
      { status := 200,
        data := [{ hotelName := "H", latitude := "0", longitude := "0",
                   priceTotal := some "100" }] } ++
    [{ status := 200,
       data := List.replicate 3
         { hotelName := "G", latitude := "1", longitude := "1",
           priceTotal := some "50" } }]

/-- A concrete fan-out scenario: 10 hotel ids of which 3 fail (non-200)
and 7 succeed with one offer each. -/
def scenarioReplies : List HotelReply :=
  [⟨200, [⟨"H1", "1", "1", some "110"⟩]⟩,
   ⟨500, []⟩,
   ⟨200, [⟨"H3", "3", "3", some "130"⟩]⟩,
   ⟨200, [⟨"H4", "4", "4", some "140"⟩]⟩,
   ⟨400, []⟩,
   ⟨200, [⟨"H6", "6", "6", none⟩]⟩,
   ⟨200, [⟨"H7", "7", "7", some "170"⟩]⟩,
   ⟨503, []⟩,
   ⟨200, [⟨"H9", "9", "9", some "190"⟩]⟩,
   ⟨200, [⟨"H10", "10", "10", some "200"⟩]⟩]

/-- Two concrete flight records with out-of-order prices. -/
def flightExpensive : FlightRecord :=
  { price := 300, duration := "2h30m", flightNumber := "AA 100",
    airline := "Alpha Air", departureTime := "2025-03-05T08:00:00" }

def flightCheap : FlightRecord :=
  { price := 120, duration := "2h45m", flightNumber := "BB 200",
    airline := "Beta Air", departureTime := "2025-03-05T11:00:00" }

/- ------------------------------------------------------------------
Section: Youtube-Master-Agent/agents/tubemaster.py (call_agent)

Python source, call_agent:
  handler = self.agent.run(self.format_user_prompt(user_prompt), ...)
  if show_reasoning:
      (print a header; for each streamed event print either the tool-call
       line or the incremental text delta; print a footer)
  response = await handler
  response_text = response.response.blocks[-1].text
  return response_text

The model-plus-tools behavior is passed in as a function from the
formatted prompt to the finished run: the events it streams and the
content blocks of its final response.  call_agent returns the answer
(none models the IndexError on an empty block list) together with the
lines printed to the observation stream.
------------------------------------------------------------------ -/

structure ContentBlock where
  text : String

inductive AgentEvent where
  | toolCallResult (tool_name tool_kwargs tool_output : String)
  | agentStream (delta : String)
  | otherEvent

structure AgentRun where
  events : List AgentEvent
  blocks : List ContentBlock

/-- What the reasoning loop prints for one streamed event. -/
def renderEvent : AgentEvent → List String
  | AgentEvent.toolCallResult n k o =>
    ["\nCalled tool: " ++ n ++ " " ++ k ++ " => " ++ o]
  | AgentEvent.agentStream d => [d]
  | AgentEvent.otherEvent => []

/-- The scoped prompt built by format_user_prompt: the system scoping
message and the wrapped user request, as rendered by the chat template. -/
def format_user_prompt (user_request : String) : String :=
  "system: You are an AI assistant specialized in YouTube video " ++
    "transcription, summarization, content understanding, and answering " ++
    "related questions.\nONLY respond if the request is related to these " ++
    "tasks.\nProvided summaries should always be relatively short.\nIf " ++
    "the request is unrelated, simply reply: 'I'm sorry, but I can only " ++
    "assist with YouTube video-related tasks.'\n\n" ++
    "\nuser: Request: " ++ user_request

/-- The final answer extraction: response.response.blocks[-1].text. -/
def extract_answer (blocks : List ContentBlock) : Option String :=
  blocks.getLast?.map ContentBlock.text

/-- TubeMasterAgent.call_agent: runs the workflow on the scoped prompt,
optionally prints the reasoning trace, and returns the text of the last
content block of the final response together with the printed lines. -/
def call_agent (run : String → AgentRun) (user_prompt : String)
    (show_reasoning : Bool) : Option String × List String :=
  let handler := run (format_user_prompt user_prompt)
  let trace :=
    if show_reasoning then
      "********Agent Reasoning********" ::
        (handler.events.flatMap renderEvent ++
          ["********End Agent Reasoning********"])
    else []
  (extract_answer handler.blocks, trace)

theorem specBlockList_length (summaries : List String) :
    ∀ (i : Nat) (titles urls topics : List String),
    titles.length = summaries.length → urls.length = summaries.length →
    topics.length = summaries.length →
    (specBlockList i titles urls topics summaries).length =
      summaries.length := by
  induction summaries with
  | nil =>
    intro i titles urls topics ht hu hp
    rw [List.length_nil, List.length_eq_zero] at ht hu hp
    subst ht hu hp
    rfl
  | cons s ss ih =>
    intro i titles urls topics ht hu hp
    cases titles with
    | nil => simp at ht
    | cons t ts =>
      cases urls with
      | nil => simp at hu
      | cons u us =>
        cases topics with
        | nil => simp at hp
        | cons p ps =>
          simp only [List.length_cons, Nat.succ.injEq] at ht hu hp
          simp only [specBlockList, List.length_cons, Nat.succ.injEq]
          exact ih (i + 1) ts us ps ht hu hp

theorem range_flatMap_blocks (summaries : List String) :
    ∀ (titles urls topics : List String) (k : Nat),
    titles.length = summaries.length → urls.length = summaries.length →
    topics.length = summaries.length →
    (List.range summaries.length).flatMap (fun i =>
      ["Video " ++ toString (i + k) ++ ":",
       "  Title: " ++ titles.getD i "",
       "  URL: " ++ urls.getD i "",
       "  Topic: " ++ topics.getD i "",
       "  Summary: " ++ summaries.getD i "",
       ""]) =
      List.flatten (specBlockList k titles urls topics summaries) := by
  induction summaries with
  | nil =>
    intro titles urls topics k ht hu hp
    rw [List.length_nil, List.length_eq_zero] at ht hu hp
    subst ht hu hp
    rfl
  | cons s ss ih =>
    intro titles urls topics k ht hu hp
    cases titles with
    | nil => simp at ht
    | cons t ts =>
      cases urls with
      | nil => simp at hu
      | cons u us =>
        cases topics with
        | nil => simp at hp
        | cons p ps =>
          simp only [List.length_cons, Nat.succ.injEq] at ht hu hp
          rw [List.length_cons, List.range_succ_eq_map]
          rw [List.flatMap_cons, List.flatMap_map]
          have ih2 := ih ts us ps (k + 1) ht hu hp
          simp only [Function.comp_def, List.getD_cons_succ,
            List.getD_cons_zero, Nat.zero_add]
          rw [show (fun i => ["Video " ++ toString (i + 1 + k) ++ ":",
              "  Title: " ++ ts.getD i "", "  URL: " ++ us.getD i "",
              "  Topic: " ++ ps.getD i "", "  Summary: " ++ ss.getD i "",
              ""]) =
              (fun i => ["Video " ++ toString (i + (k + 1)) ++ ":",
              "  Title: " ++ ts.getD i "", "  URL: " ++ us.getD i "",
              "  Topic: " ++ ps.getD i "", "  Summary: " ++ ss.getD i "",
              ""])
            from funext fun i => by rw [Nat.add_right_comm, Nat.add_assoc]]
          rw [ih2, specBlockList, List.flatten_cons, specBlock]

theorem zipItems_length (summaries : List String) :
    ∀ (titles urls topics : List String),
    titles.length = summaries.length → urls.length = summaries.length →
    topics.length = summaries.length →
    (zipItems titles urls topics summaries).length = summaries.length := by
  induction summaries with
  | nil =>
    intro titles urls topics ht hu hp
    rw [List.length_nil, List.length_eq_zero] at ht hu hp
    subst ht hu hp
    rfl
  | cons s ss ih =>
    intro titles urls topics ht hu hp
    cases titles with
    | nil => simp at ht
    | cons t ts =>
      cases urls with
      | nil => simp at hu
      | cons u us =>
        cases topics with
        | nil => simp at hp
        | cons p ps =>
          simp only [List.length_cons, Nat.succ.injEq] at ht hu hp
          simp only [zipItems, List.length_cons, Nat.succ.injEq]
          exact ih ts us ps ht hu hp

/-- Claim C1: for equal-length inputs of size N, the text-mode formatter
returns exactly the newline-join of N blocks in input order, the i-th
block numbered i starting from 1 with the four labeled lines Title, URL,
Topic, Summary carrying the i-th inputs verbatim plus a blank separator
line, and the block list has exactly N entries. -/
theorem c1_text_mode_blocks (summaries titles topics urls : List String)
    (h1 : summaries.length = titles.length)
    (h2 : titles.length = topics.length)
    (h3 : topics.length = urls.length) :
    video_summary_response_formatter summaries titles topics urls =
      String.intercalate "\n"
        (List.flatten (specBlockList 1 titles urls topics summaries)) ∧
    (specBlockList 1 titles urls topics summaries).length =
      summaries.length := by
  have ht : titles.length = summaries.length := h1.symm
  have hu : urls.length = summaries.length := by omega
  have hp : topics.length = summaries.length := by omega
  constructor
  · rw [video_summary_response_formatter, if_pos ⟨h1, h2, h3⟩,
      range_flatMap_blocks summaries titles urls topics 1 ht hu hp]
  · exact specBlockList_length summaries 1 titles urls topics ht hu hp

theorem c1_text_mode_blocks_witness :
    video_summary_response_formatter
        ["sum1", "sum2"] ["title1", "title2"] ["topic1", "topic2"]
        ["url1", "url2"] =
      String.intercalate "\n"
        (List.flatten (specBlockList 1 ["title1", "title2"]
          ["url1", "url2"] ["topic1", "topic2"] ["sum1", "sum2"])) ∧
    (specBlockList 1 ["title1", "title2"] ["url1", "url2"]
      ["topic1", "topic2"] ["sum1", "sum2"]).length = 2 :=
  c1_text_mode_blocks ["sum1", "sum2"] ["title1", "title2"]
    ["topic1", "topic2"] ["url1", "url2"] rfl rfl rfl

/-- Claim C2: on any length mismatch among the four input lists, both the
text-mode and the JSON-mode formatter return the exact literal error
string (as an ordinary value, so nothing is raised). -/
theorem c2_mismatch_literal_error (summaries titles topics urls : List String)
    (h : ¬ (summaries.length = titles.length ∧
        titles.length = topics.length ∧ topics.length = urls.length)) :
    video_summary_response_formatter summaries titles topics urls =
      "Error: Input lists must have the same length." ∧
    json_response_formatter summaries titles topics urls =
      "Error: Input lists must have the same length." := by
  constructor
  · rw [video_summary_response_formatter, if_neg h]
  · rw [json_response_formatter, if_neg h]

theorem c2_mismatch_literal_error_witness :
    video_summary_response_formatter ["s1"] [] [] [] =
      "Error: Input lists must have the same length." ∧
    json_response_formatter ["s1"] [] [] [] =
      "Error: Input lists must have the same length." :=
  c2_mismatch_literal_error ["s1"] [] [] [] (by simp)

/-- Claim C6: a file path not ending in ".mp3" makes transcribe_audio
return the rejection string as an ordinary value (no exception) with an
empty list of external accesses: no file and no network operation. -/
theorem c6_non_mp3_rejected (audio_file : String)
    (fs : String → Except String AudioBytes)
    (api : AudioBytes → Except String (Option String))
    (h : pyEndsWith audio_file ".mp3" = false) :
    transcribe_audio audio_file fs api =
      (Except.ok "Audio file must be in MP3 format.", []) := by
  simp [transcribe_audio, h]

theorem c6_non_mp3_rejected_witness :
    transcribe_audio "talk.wav" (fun _ => Except.error "boom")
        (fun _ => Except.error "network down") =
      (Except.ok "Audio file must be in MP3 format.", []) :=
  c6_non_mp3_rejected "talk.wav" (fun _ => Except.error "boom")
    (fun _ => Except.error "network down") (by decide)

/-- Claim C7: the answer returned by call_agent is the text of the last
content block of the model's final response; any earlier blocks do not
influence the returned value. -/
theorem c7_last_block_only (events : List AgentEvent)
    (pre : List ContentBlock) (b : ContentBlock)
    (user_prompt : String) (show_reasoning : Bool) :
    (call_agent (fun _ => { events := events, blocks := pre ++ [b] })
        user_prompt show_reasoning).1 = some b.text := by
  simp [call_agent, extract_answer]

/-- Claim C8: for one fixed model-and-tool behavior, the value returned
by call_agent is identical with show_reasoning true and false; the flag
only changes the printed trace. -/
theorem c8_show_reasoning_pure (run : String → AgentRun)
    (user_prompt : String) :
    (call_agent run user_prompt true).1 =
      (call_agent run user_prompt false).1 := rfl

/-- Claim C10: every successful download_youtube_audio invocation returns
exactly "Audio file: path, Title: title" where the path ends in ".mp3",
so the reported path passes the transcription adapter's extension check
and transcribe_audio on it proceeds to its file read. -/
theorem c10_success_reports_mp3 (output_dir : String)
    (title? : Option String) :
    download_youtube_audio output_dir (Except.ok title?) =
      "Audio file: " ++ (output_dir ++ ".mp3") ++ ", Title: " ++
        title?.getD "Unknown Title" ∧
    pyEndsWith (output_dir ++ ".mp3") ".mp3" = true ∧
    ∀ fs api, (transcribe_audio (output_dir ++ ".mp3") fs api).2.head? =
      some (TEffect.fsRead (output_dir ++ ".mp3")) := by
  have hend : pyEndsWith (output_dir ++ ".mp3") ".mp3" = true := by
    rw [pyEndsWith, decide_eq_true_iff, String.data_append]
    exact List.suffix_append _ _
  refine ⟨rfl, hend, ?_⟩
  intro fs api
  cases hfs : fs (output_dir ++ ".mp3") with
  | error e => simp [transcribe_audio, hend, hfs]
  | ok bytes =>
    cases hapi : api bytes with
    | error e => simp [transcribe_audio, hend, hfs, hapi]
    | ok text? => simp [transcribe_audio, hend, hfs, hapi]

/-- Claim C4 is refuted at concrete inputs: the travel-search adapter's
country-code conversion turns a not-found/network condition (a non-200
reply) into a raised ValueError — an Except.error, i.e. an exception
propagating out — rather than a returned error string; the transcription
adapter likewise lets a file-not-found error during an .mp3 transcription
propagate instead of returning it. -/
theorem c4_counterexample :
    convert_country_to_code "Atlantis" { status := 404, cca2s := [] } =
      Except.error
        "Could not convert country name: Atlantis. Check spelling." ∧
    (transcribe_audio "a.mp3" (fun _ => Except.error "FileNotFoundError")
        (fun _ => Except.ok none)).1 =
      Except.error "FileNotFoundError" := by
  constructor
  · rfl
  · simp [transcribe_audio, show pyEndsWith "a.mp3" ".mp3" = true by decide]

/-- Claim C4 amended: the media-fetch adapter converts every failure of
its extraction step into a returned error string and never raises, and
the transcription adapter returns its rejection string for non-MP3 paths;
but the travel-search adapter raises a ValueError (an exception
propagating out) when the country lookup replies non-200, and the
transcription adapter's file read likewise propagates its exception. -/
theorem c4_adapter_failures_amended :
    (∀ (output_dir e : String),
        download_youtube_audio output_dir (Except.error e) = e) ∧
    (∀ (audio_file : String) fs api, pyEndsWith audio_file ".mp3" = false →
        (transcribe_audio audio_file fs api).1 =
          Except.ok "Audio file must be in MP3 format.") ∧
    (∀ (audio_file : String) fs api e, pyEndsWith audio_file ".mp3" = true →
        fs audio_file = Except.error e →
        (transcribe_audio audio_file fs api).1 = Except.error e) ∧
    (∀ (country_name : String) (reply : CountriesReply),
        reply.status ≠ 200 →
        convert_country_to_code country_name reply =
          Except.error ("Could not convert country name: " ++ country_name ++
            ". Check spelling.")) := by
  refine ⟨fun _ _ => rfl, ?_, ?_, ?_⟩
  · intro audio_file fs api h
    simp [transcribe_audio, h]
  · intro audio_file fs api e hend hfs
    simp [transcribe_audio, hend, hfs]
  · intro country_name reply h
    rw [convert_country_to_code, if_pos h]

theorem c4_adapter_failures_amended_witness :
    download_youtube_audio "/tmp/dl" (Except.error "HTTP Error 403") =
      "HTTP Error 403" ∧
    (transcribe_audio "talk.ogg" (fun _ => Except.ok [0])
        (fun _ => Except.ok (some "hi"))).1 =
      Except.ok "Audio file must be in MP3 format." ∧
    (transcribe_audio "talk.mp3" (fun _ => Except.error "no such file")
        (fun _ => Except.ok (some "hi"))).1 =
      Except.error "no such file" ∧
    convert_country_to_code "Narnia" { status := 500, cca2s := [] } =
      Except.error "Could not convert country name: Narnia. Check spelling." :=
  ⟨c4_adapter_failures_amended.1 "/tmp/dl" "HTTP Error 403",
   c4_adapter_failures_amended.2.1 "talk.ogg" (fun _ => Except.ok [0])
     (fun _ => Except.ok (some "hi")) (by decide),
   c4_adapter_failures_amended.2.2.1 "talk.mp3"
     (fun _ => Except.error "no such file") (fun _ => Except.ok (some "hi"))
     "no such file" (by decide) rfl,
   c4_adapter_failures_amended.2.2.2 "Narnia"
     { status := 500, cca2s := [] } (by decide)⟩

/-- Claim C5 is refuted at a concrete input: the 15-record cap is checked
only after appending all offers of a hotel's reply, so 14 single-offer
hotels followed by one three-offer hotel yield 17 collected records,
more than the claimed at-most-15. -/
theorem c5_cap_counterexample :
    outcomeCount
      (fetch_hotel_offers "2025-03-15" "2025-03-16" "USD" capReplies) =
      17 := by decide

theorem offersLoop_skip_singletons (ci co cur : String) :
    ∀ (rs : List HotelReply) (data : List HotelRecord),
    (∀ r ∈ rs, r.status ≠ 200 ∨ r.data.length = 1) →
    data.length < 15 →
    offersLoop ci co cur rs data =
      OffersOutcome.table
        ((data ++ successRecords ci co cur rs).take 15) := by
  intro rs
  induction rs with
  | nil =>
    intro data _ hlen
    simp [offersLoop, successRecords, List.take_of_length_le (le_of_lt hlen)]
  | cons r rs ih =>
    intro data hall hlen
    have hr := hall r (List.mem_cons_self r rs)
    have hrest : ∀ x ∈ rs, x.status ≠ 200 ∨ x.data.length = 1 :=
      fun x hx => hall x (List.mem_cons_of_mem r hx)
    by_cases hs : r.status = 200
    · rcases hr with hr | hr
      · exact absurd hs hr
      · obtain ⟨o, ho⟩ := List.length_eq_one.mp hr
        rw [offersLoop, if_neg (by simp [hs]), ho]
        simp only []
        by_cases hcap :
            15 ≤ (data ++ [o].map (offerToRecord ci co cur)).length
        · rw [if_pos hcap]
          have hl15 : (data ++ [offerToRecord ci co cur o]).length = 15 := by
            simp only [List.length_append, List.length_cons, List.length_map,
              List.length_nil] at hcap ⊢
            omega
          have : successRecords ci co cur (r :: rs) =
              offerToRecord ci co cur o :: successRecords ci co cur rs := by
            simp [successRecords, List.filter_cons, hs, ho]
          rw [this, show data ++ offerToRecord ci co cur o ::
              successRecords ci co cur rs =
              (data ++ [offerToRecord ci co cur o]) ++
                successRecords ci co cur rs by simp,
            List.take_left' hl15]
          simp
        · rw [if_neg hcap]
          have hlt : (data ++ [o].map (offerToRecord ci co cur)).length < 15 :=
            by omega
          rw [ih (data ++ [o].map (offerToRecord ci co cur)) hrest hlt]
          have : successRecords ci co cur (r :: rs) =
              offerToRecord ci co cur o :: successRecords ci co cur rs := by
            simp [successRecords, List.filter_cons, hs, ho]
          rw [this]
          simp
    · rw [offersLoop, if_pos (by simp [hs])]
      rw [ih data hrest hlen]
      have : successRecords ci co cur (r :: rs) =
          successRecords ci co cur rs := by
        simp [successRecords, List.filter_cons, hs]
      rw [this]

/-- Claim C5 amended: in the per-hotel fan-out a failed offer lookup
(non-200 reply) is skipped while the remaining hotels' offers keep being
collected — the result is exactly the successful hotels' records in order
— and collection stops at the first hotel that brings the accepted total
to 15, so when every successful reply carries a single offer (the
bestRateOnly request shape) at most 15 records are collected. -/
theorem c5_skip_failures_capped (ci co cur : String)
    (replies : List HotelReply)
    (h : ∀ r ∈ replies.take 50, r.status ≠ 200 ∨ r.data.length = 1) :
    fetch_hotel_offers ci co cur replies =
      OffersOutcome.table
        ((successRecords ci co cur (replies.take 50)).take 15) ∧
    outcomeCount (fetch_hotel_offers ci co cur replies) ≤ 15 := by
  have hmain := offersLoop_skip_singletons ci co cur (replies.take 50) [] h
    (by simp)
  constructor
  · rw [fetch_hotel_offers, hmain]
    simp
  · rw [fetch_hotel_offers, hmain]
    simp only [List.nil_append, outcomeCount]
    exact List.length_take_le 15 _

theorem c5_skip_failures_capped_witness :
    fetch_hotel_offers "2025-03-15" "2025-03-16" "USD" scenarioReplies =
      OffersOutcome.table
        ((successRecords "2025-03-15" "2025-03-16" "USD"
          (scenarioReplies.take 50)).take 15) ∧
    outcomeCount
      (fetch_hotel_offers "2025-03-15" "2025-03-16" "USD" scenarioReplies) ≤
      15 :=
  c5_skip_failures_capped "2025-03-15" "2025-03-16" "USD" scenarioReplies
    (by decide)

theorem insertByPrice_perm (x : FlightRecord) :
    ∀ l, List.Perm (insertByPrice x l) (x :: l) := by
  intro l
  induction l with
  | nil => exact List.Perm.refl _
  | cons y ys ih =>
    rw [insertByPrice]
    by_cases h : x.price ≤ y.price
    · rw [if_pos h]
    · rw [if_neg h]
      exact (ih.cons y).trans (List.Perm.swap x y ys)

theorem sortByPrice_perm : ∀ l, List.Perm (sortByPrice l) l := by
  intro l
  induction l with
  | nil => exact List.Perm.refl _
  | cons x xs ih =>
    rw [sortByPrice]
    exact (insertByPrice_perm x (sortByPrice xs)).trans (ih.cons x)

theorem insertByPrice_pairwise (x : FlightRecord) :
    ∀ l, List.Pairwise (fun a b => a.price ≤ b.price) l →
    List.Pairwise (fun a b => a.price ≤ b.price) (insertByPrice x l) := by
  intro l
  induction l with
  | nil => intro _; simp [insertByPrice]
  | cons y ys ih =>
    intro h
    rcases List.pairwise_cons.mp h with ⟨hy, hys⟩
    rw [insertByPrice]
    by_cases hle : x.price ≤ y.price
    · rw [if_pos hle]
      refine List.pairwise_cons.mpr ⟨?_, h⟩
      intro z hz
      rcases List.mem_cons.mp hz with rfl | hz
      · exact hle
      · exact le_trans hle (hy z hz)
    · rw [if_neg hle]
      refine List.pairwise_cons.mpr ⟨?_, ih hys⟩
      intro z hz
      rcases List.mem_cons.mp ((insertByPrice_perm x ys).mem_iff.mp hz) with
        rfl | hz'
      · exact le_of_not_le hle
      · exact hy z hz'

theorem sortByPrice_pairwise (l : List FlightRecord) :
    List.Pairwise (fun a b => a.price ≤ b.price) (sortByPrice l) := by
  induction l with
  | nil => simp [sortByPrice]
  | cons x xs ih => exact insertByPrice_pairwise x (sortByPrice xs) ih

/-- Claim C9: when at least one flight offer was collected, the returned
table renders the records sorted by the price field: its rows are the
collected records reordered (a permutation) into non-decreasing price
order. -/
theorem c9_rows_sorted_by_price
    (departure_city departure_country destination_city destination_country
      travel_date currency : String)
    (flight_list : List FlightRecord) (h : flight_list ≠ []) :
    flight_forward_format departure_city departure_country destination_city
        destination_country travel_date currency flight_list =
      flightTableHeader currency ++ "\n" ++
        String.intercalate "\n"
          ((sortByPrice flight_list).map renderFlightRow) ∧
    List.Pairwise (fun a b => a.price ≤ b.price) (sortByPrice flight_list) ∧
    (sortByPrice flight_list).Perm flight_list := by
  refine ⟨?_, sortByPrice_pairwise flight_list, sortByPrice_perm flight_list⟩
  rw [flight_forward_format,
    if_neg (fun hc => h (List.length_eq_zero.mp hc))]

theorem c9_rows_sorted_by_price_witness :
    flight_forward_format "London" "United Kingdom" "Rome" "Italy"
        "2025-03-05" "EUR" [flightExpensive, flightCheap] =
      flightTableHeader "EUR" ++ "\n" ++
        String.intercalate "\n"
          ((sortByPrice [flightExpensive, flightCheap]).map
            renderFlightRow) ∧
    List.Pairwise (fun a b => a.price ≤ b.price)
      (sortByPrice [flightExpensive, flightCheap]) ∧
    (sortByPrice [flightExpensive, flightCheap]).Perm
      [flightExpensive, flightCheap] :=
  c9_rows_sorted_by_price "London" "United Kingdom" "Rome" "Italy"
    "2025-03-05" "EUR" [flightExpensive, flightCheap] (by simp)

theorem stripLeading_append :
    ∀ (p l : List Char), stripLeading p (p ++ l) = some l := by
  intro p
  induction p with
  | nil => intro l; rfl
  | cons a as ih => intro l; simp [stripLeading, ih]

theorem parseStringBody_escape :
    ∀ (s rest : List Char),
    parseStringBody (escapeChars s ++ '"' :: rest) = some (s, rest) := by
  intro s
  induction s with
  | nil =>
    intro rest
    simp only [escapeChars, List.flatMap_nil, List.nil_append]
    rw [parseStringBody.eq_def]
    simp
  | cons c cs ih =>
    intro rest
    simp only [escapeChars, List.flatMap_cons, List.append_assoc] at ih ⊢
    by_cases h1 : c = '"'
    · subst h1
      rw [show escChar '"' = ['\\', '"'] from rfl]
      simp only [List.cons_append, List.nil_append]
      rw [parseStringBody.eq_def]
      simp [unescChar, ih]
    · by_cases h2 : c = '\\'
      · subst h2
        rw [show escChar '\\' = ['\\', '\\'] from rfl]
        simp only [List.cons_append, List.nil_append]
        rw [parseStringBody.eq_def]
        simp [unescChar, ih]
      · by_cases h3 : c = '\n'
        · subst h3
          rw [show escChar '\n' = ['\\', 'n'] from rfl]
          simp only [List.cons_append, List.nil_append]
          rw [parseStringBody.eq_def]
          simp [unescChar, ih]
        · by_cases h4 : c = '\t'
          · subst h4
            rw [show escChar '\t' = ['\\', 't'] from rfl]
            simp only [List.cons_append, List.nil_append]
            rw [parseStringBody.eq_def]
            simp [unescChar, ih]
          · by_cases h5 : c = '\r'
            · subst h5
              rw [show escChar '\r' = ['\\', 'r'] from rfl]
              simp only [List.cons_append, List.nil_append]
              rw [parseStringBody.eq_def]
              simp [unescChar, ih]
            · simp only [escChar, if_neg h1, if_neg h2, if_neg h3,
                if_neg h4, if_neg h5, List.cons_append, List.nil_append]
              rw [parseStringBody.eq_def]
              simp [h1, h2, ih]

theorem escapeStr_data (s : String) :
    (escapeStr s).data = escapeChars s.data := rfl

theorem parseStringBody_escape_quote (s : String) (rest : List Char) :
    parseStringBody (escapeChars s.data ++ (closeQuote.data ++ rest)) =
      some (s.data, rest) :=
  parseStringBody_escape s.data rest

theorem parseVideoItem_render (t u p s : String) (rest : List Char) :
    parseVideoItem ((renderVideoItem (t, u, p, s)).data ++ rest) =
      some ((t, u, p, s), rest) := by
  unfold parseVideoItem renderVideoItem
  simp only [String.data_append, escapeStr_data, List.append_assoc]
  rw [stripLeading_append]
  simp only [Option.some_bind]
  rw [parseStringBody_escape_quote]
  simp only [Option.some_bind]
  rw [stripLeading_append]
  simp only [Option.some_bind]
  rw [parseStringBody_escape_quote]
  simp only [Option.some_bind]
  rw [stripLeading_append]
  simp only [Option.some_bind]
  rw [parseStringBody_escape_quote]
  simp only [Option.some_bind]
  rw [stripLeading_append]
  simp only [Option.some_bind]
  rw [parseStringBody_escape_quote]
  simp only [Option.some_bind]
  rw [stripLeading_append]
  rfl

theorem renderVideoItems_length_ge :
    ∀ (its : List (String × String × String × String)),
    its.length ≤ (renderVideoItems its).data.length := by
  intro its
  induction its with
  | nil => simp [renderVideoItems]
  | cons it its ih =>
    cases its with
    | nil =>
      obtain ⟨t, u, p, s⟩ := it
      have hh : 1 ≤ itemHead.data.length := by decide
      simp only [renderVideoItems, renderVideoItem, String.data_append,
        List.length_append, List.length_cons, List.length_nil]
      omega
    | cons it2 its2 =>
      obtain ⟨t, u, p, s⟩ := it
      have hh : 1 ≤ itemHead.data.length := by decide
      simp only [renderVideoItems, renderVideoItem, String.data_append,
        List.length_append, List.length_cons] at ih ⊢
      omega

theorem parseVideoItemsFuel_render :
    ∀ (its : List (String × String × String × String)) (fuel : Nat),
    its ≠ [] → its.length ≤ fuel →
    parseVideoItemsFuel fuel
        ((renderVideoItems its).data ++ arrayTail.data) =
      some (its, arrayTail.data) := by
  intro its
  induction its with
  | nil => intro fuel hne _; exact absurd rfl hne
  | cons it its ih =>
    intro fuel _ hfuel
    cases fuel with
    | zero => simp at hfuel
    | succ f =>
      cases its with
      | nil =>
        obtain ⟨t, u, p, s⟩ := it
        rw [show renderVideoItems [(t, u, p, s)] =
          renderVideoItem (t, u, p, s) from rfl]
        rw [parseVideoItemsFuel.eq_def]
        simp only []
        rw [parseVideoItem_render]
        simp only []
        rw [show stripLeading itemsJoinSep.data arrayTail.data =
          none from rfl]
      | cons it2 its2 =>
        obtain ⟨t, u, p, s⟩ := it
        rw [show renderVideoItems ((t, u, p, s) :: it2 :: its2) =
          renderVideoItem (t, u, p, s) ++ itemsJoinSep ++
            renderVideoItems (it2 :: its2) from rfl]
        rw [parseVideoItemsFuel.eq_def]
        simp only [String.data_append, List.append_assoc]
        rw [parseVideoItem_render]
        simp only []
        rw [stripLeading_append]
        simp only []
        rw [ih f (by simp) (by simp only [List.length_cons] at hfuel ⊢; omega)]

/-- Claim C3: the JSON-mode formatter exists and, for equal-length inputs
of size N, emits the 2-space-indented serialization of an object with the
single top-level key "videos" holding the array of per-item objects, and
its output round-trips: the independent parser json_parse_videos recovers
exactly the N per-item field quadruples in input order. -/
theorem c3_json_roundtrip (summaries titles topics urls : List String)
    (h1 : summaries.length = titles.length)
    (h2 : titles.length = topics.length)
    (h3 : topics.length = urls.length) :
    json_parse_videos (json_response_formatter summaries titles topics urls) =
      some (zipItems titles urls topics summaries) ∧
    (zipItems titles urls topics summaries).length = summaries.length := by
  refine ⟨?_, zipItems_length summaries titles urls topics h1.symm
    (by omega) (by omega)⟩
  rw [json_response_formatter, if_pos ⟨h1, h2, h3⟩]
  cases hz : zipItems titles urls topics summaries with
  | nil =>
    have hself : stripLeading emptyArrayTail.data emptyArrayTail.data =
        some [] := by
      have h := stripLeading_append emptyArrayTail.data []
      rwa [List.append_nil] at h
    unfold json_parse_videos
    rw [String.data_append, stripLeading_append]
    simp only [hself]
  | cons it its =>
    unfold json_parse_videos
    simp only [String.data_append, List.append_assoc]
    rw [stripLeading_append]
    simp only []
    rw [show stripLeading emptyArrayTail.data (arrayHeadTail.data ++
      ((renderVideoItems (it :: its)).data ++ arrayTail.data)) = none
      from rfl]
    rw [stripLeading_append]
    simp only []
    rw [parseVideoItemsFuel_render (it :: its) _ (by simp) ?_]
    · simp
    · calc (it :: its).length ≤ (renderVideoItems (it :: its)).data.length :=
        renderVideoItems_length_ge (it :: its)
      _ ≤ ((renderVideoItems (it :: its)).data ++ arrayTail.data).length := by
        simp only [List.length_append]
        omega

theorem c3_json_roundtrip_witness :
    json_parse_videos (json_response_formatter ["sum1", "sum2"]
        ["title1", "title2"] ["topic1", "topic2"] ["url1", "url2"]) =
      some (zipItems ["title1", "title2"] ["url1", "url2"]
        ["topic1", "topic2"] ["sum1", "sum2"]) ∧
    (zipItems ["title1", "title2"] ["url1", "url2"] ["topic1", "topic2"]
      ["sum1", "sum2"]).length = 2 :=
  c3_json_roundtrip ["sum1", "sum2"] ["title1", "title2"]
    ["topic1", "topic2"] ["url1", "url2"] rfl rfl rfl
